import Mathlib

/-!
Shallow embedding of `src/scripts/odas_visualization_node.py` (odas_ros):
the configuration gate, the SSL (localization) callback, the SST (tracking)
callback with its stored pose state, and the unit-vector-to-quaternion
converter, together with proofs of the specified properties.

Floating-point numbers are modelled by real numbers; ROS timestamps by
naturals; a raised Python `ValueError` by `Except.error`; `rospy.logerr`
output by an `Option String` component of the callback's result.
-/

/-- Model of the `interface` sub-table of a stream configuration: the code
reads `...['interface']['type']`. -/
structure InterfaceConfig where
  type : String
deriving DecidableEq

/-- Model of the `ssl.potential` configuration section: the code reads
`configuration['ssl']['potential']['interface']['type']` and
`configuration['ssl']['potential']['format']`. -/
structure SslPotentialConfig where
  interface : InterfaceConfig
  format : String
deriving DecidableEq

/-- Model of the `ssl` configuration section. -/
structure SslConfig where
  potential : SslPotentialConfig
deriving DecidableEq

/-- Model of the `sst.tracked` configuration section: the code reads
`configuration['sst']['tracked']['interface']['type']` and
`configuration['sst']['tracked']['format']`. -/
structure SstTrackedConfig where
  interface : InterfaceConfig
  format : String
deriving DecidableEq

/-- Model of the `sst` configuration section. -/
structure SstConfig where
  tracked : SstTrackedConfig
deriving DecidableEq

/-- The whole configuration document as read by the node. -/
structure Configuration where
  ssl : SslConfig
  sst : SstConfig
deriving DecidableEq

/-- Embedding of `_verify_ssl_configuration` (lines 42-50).  A raised
`ValueError` becomes `Except.error` carrying the exact message string. -/
def verify_ssl_configuration (c : Configuration) : Except String Bool :=
  if c.ssl.potential.interface.type ≠ "socket" then
    Except.ok false
  else if c.ssl.potential.format ≠ "json" then
    Except.error "The ssl format must be \"json\""
  else
    Except.ok true

/-- Embedding of `_verify_sst_configuration` (lines 52-60). -/
def verify_sst_configuration (c : Configuration) : Except String Bool :=
  if c.sst.tracked.interface.type ≠ "socket" then
    Except.ok false
  else if c.sst.tracked.format ≠ "json" then
    Except.error "The sst format must be \"json\""
  else
    Except.ok true

/-- A ROS header: timestamp (modelled as a natural) and frame identifier. -/
structure Header where
  stamp : Nat
  frame_id : String

/-- One SSL detection (`OdasSsl` message): direction on the unit sphere plus
energy, all float fields modelled as reals. -/
structure OdasSsl where
  x : ℝ
  y : ℝ
  z : ℝ
  E : ℝ

/-- An `OdasSslArrayStamped` message: header plus detection list. -/
structure OdasSslArrayStamped where
  header : Header
  sources : List OdasSsl

/-- A `sensor_msgs/PointField` description (name, byte offset, datatype code,
count), as built at lines 78-81. -/
structure PointField where
  name : String
  offset : Nat
  datatype : Nat
  count : Nat

/-- The `sensor_msgs/PointField FLOAT32` datatype code. -/
def FLOAT32 : Nat := 7

/-- A `PointCloud2` message as produced by `pcl2.create_cloud(header, fields,
points)`: the header, the field layout, and the point rows in order. -/
structure PointCloud2 where
  header : Header
  fields : List PointField
  points : List (ℝ × ℝ × ℝ × ℝ)

/-- Embedding of `_ssl_cb` (lines 62-84).  `now` stands for the value of
`rospy.Time.now()`; the published cloud (if any) is the return value.  The
two `if` branches mirror the source's `len(ssl.sources) == 0` early return
and `len(ssl.sources) > 0` guard. -/
def ssl_cb (ssl : OdasSslArrayStamped) (now : Nat) : Option PointCloud2 :=
  if ssl.sources.length = 0 then
    none
  else if ssl.sources.length > 0 then
    some { header := { stamp := now, frame_id := ssl.header.frame_id },
           fields := [⟨"x", 0, FLOAT32, 1⟩, ⟨"y", 4, FLOAT32, 1⟩,
                      ⟨"z", 8, FLOAT32, 1⟩, ⟨"intensity", 12, FLOAT32, 1⟩],
           points := ssl.sources.map (fun s => (s.x, s.y, s.z, s.E)) }
  else
    none

/-- Two-argument arctangent with numpy's conventions (`np.arctan2(y, x)`):
the angle of the point `(x, y)` in `(-pi, pi]`, with `atan2 0 0 = 0`. -/
noncomputable def atan2 (y x : ℝ) : ℝ :=
  if 0 < x then Real.arctan (y / x)
  else if x < 0 then
    if 0 ≤ y then Real.arctan (y / x) + Real.pi
    else Real.arctan (y / x) - Real.pi
  else
    if 0 < y then Real.pi / 2
    else if y < 0 then -(Real.pi / 2)
    else 0

/-- Embedding of `tf_conversions.transformations.quaternion_from_euler`
specialized to its default axes argument `sxyz` (the call at line 118 passes
no axes), returning `(qx, qy, qz, qw)` exactly as the library code computes
the components `q[0] .. q[3]` for `firstaxis i = 0`, `j = 1`, `k = 2`,
`parity = 0`, `repetition = 0`, `frame = 0`. -/
noncomputable def quaternion_from_euler (ai aj ak : ℝ) : ℝ × ℝ × ℝ × ℝ :=
  let ai2 := ai / 2
  let aj2 := aj / 2
  let ak2 := ak / 2
  let ci := Real.cos ai2
  let si := Real.sin ai2
  let cj := Real.cos aj2
  let sj := Real.sin aj2
  let ck := Real.cos ak2
  let sk := Real.sin ak2
  let cc := ci * ck
  let cs := ci * sk
  let sc := si * ck
  let ss := si * sk
  (cj * sc - sj * cs, cj * ss + sj * cc, cj * cs - sj * sc, cj * cc + sj * ss)

/-- Embedding of `_unitVector_to_quaternion` (lines 113-119). -/
noncomputable def unitVector_to_quaternion (x y z : ℝ) : ℝ × ℝ × ℝ × ℝ :=
  let yaw := atan2 y x
  let pitch := -atan2 z (Real.sqrt (x * x + y * y))
  let roll : ℝ := 0
  quaternion_from_euler roll pitch yaw

/-- The standard right-handed, radians Euler-to-quaternion formula for the
intrinsic rotation order roll then pitch then yaw, written from the spec's
words to compare against the source's converter; components `(qx, qy, qz,
qw)`. -/
noncomputable def specEulerToQuaternion (roll pitch yaw : ℝ) : ℝ × ℝ × ℝ × ℝ :=
  (Real.sin (roll / 2) * Real.cos (pitch / 2) * Real.cos (yaw / 2) -
     Real.cos (roll / 2) * Real.sin (pitch / 2) * Real.sin (yaw / 2),
   Real.cos (roll / 2) * Real.sin (pitch / 2) * Real.cos (yaw / 2) +
     Real.sin (roll / 2) * Real.cos (pitch / 2) * Real.sin (yaw / 2),
   Real.cos (roll / 2) * Real.cos (pitch / 2) * Real.sin (yaw / 2) -
     Real.sin (roll / 2) * Real.sin (pitch / 2) * Real.cos (yaw / 2),
   Real.cos (roll / 2) * Real.cos (pitch / 2) * Real.cos (yaw / 2) +
     Real.sin (roll / 2) * Real.sin (pitch / 2) * Real.sin (yaw / 2))

/-- A 3-D position (`geometry_msgs/Point`). -/
structure Point3 where
  x : ℝ
  y : ℝ
  z : ℝ

/-- An orientation quaternion (`geometry_msgs/Quaternion`). -/
structure Quaternion4 where
  x : ℝ
  y : ℝ
  z : ℝ
  w : ℝ

/-- A `geometry_msgs/Pose`: position plus orientation. -/
structure Pose where
  position : Point3
  orientation : Quaternion4

/-- A `geometry_msgs/PoseStamped`: header plus pose. -/
structure PoseStamped where
  header : Header
  pose : Pose

/-- The adapter's stored pose after `__init__` (lines 23-26): position set to
the origin; orientation and header keep the ROS message defaults (all zero
fields, empty frame id). -/
def initPoseStamped : PoseStamped :=
  { header := { stamp := 0, frame_id := "" },
    pose := { position := ⟨0, 0, 0⟩, orientation := ⟨0, 0, 0, 0⟩ } }

/-- One SST tracked source (`OdasSst` message); the callback reads only its
`x`, `y`, `z` fields. -/
structure OdasSst where
  x : ℝ
  y : ℝ
  z : ℝ

/-- An `OdasSstArrayStamped` message: header plus tracked-source list. -/
structure OdasSstArrayStamped where
  header : Header
  sources : List OdasSst

/-- Embedding of `_sst_cb` (lines 86-111).  The stored
`_sst_input_PoseStamped` is passed and returned explicitly; the result is
`(new stored pose, published pose if any, rospy.logerr message if any)`.
`now` stands for `rospy.Time.now()`.  The source mutates only the
orientation and header fields of the stored record before publishing it. -/
noncomputable def sst_cb (state : PoseStamped) (sst : OdasSstArrayStamped)
    (now : Nat) : PoseStamped × Option PoseStamped × Option String :=
  if sst.sources.length = 0 then
    (state, none, none)
  else if sst.sources.length > 1 then
    (state, none,
      some ("Invalid sst (len(sst.sources)=" ++ toString sst.sources.length ++ ")"))
  else
    match sst.sources with
    | [] => (state, none, none)
    | src :: _ =>
      let q := unitVector_to_quaternion src.x src.y src.z
      let newState : PoseStamped :=
        { header := { stamp := now, frame_id := sst.header.frame_id },
          pose := { position := state.pose.position,
                    orientation := ⟨q.1, q.2.1, q.2.2.1, q.2.2.2⟩ } }
      (newState, some newState, none)

/-- The states the adapter's stored pose can be in: the `__init__` state, and
anything produced from a reachable state by one `_sst_cb` invocation. -/
inductive Reachable : PoseStamped → Prop
  | init : Reachable initPoseStamped
  | step (s : PoseStamped) (ev : OdasSstArrayStamped) (now : Nat) :
      Reachable s → Reachable (sst_cb s ev now).1

/-- Every `_sst_cb` invocation leaves the stored pose's position unchanged:
the callback writes only orientation and header fields. -/
theorem sst_cb_preserves_position (s : PoseStamped) (ev : OdasSstArrayStamped)
    (now : Nat) : (sst_cb s ev now).1.pose.position = s.pose.position := by
  unfold sst_cb
  split
  · rfl
  · split
    · rfl
    · split
      · rfl
      · rfl

/-- In every reachable stored pose the position is the origin. -/
theorem reachable_position_origin (s : PoseStamped) (hs : Reachable s) :
    s.pose.position = ⟨0, 0, 0⟩ := by
  induction hs with
  | init => rfl
  | step s ev now _ ih => rw [sst_cb_preserves_position]; exact ih

/-- C3: if a stream's interface type is "socket" and its format is not "json",
the corresponding verification function raises (returns `Except.error`) a
`ValueError` whose message names that stream ("ssl" resp. "sst") and states
that the format must be json; no `ok` value is produced, so the constructor
`__init__` propagates the error and startup aborts. -/
theorem config_socket_bad_format_fails (c : Configuration) :
    (c.ssl.potential.interface.type = "socket" →
      c.ssl.potential.format ≠ "json" →
      verify_ssl_configuration c = Except.error "The ssl format must be \"json\"") ∧
    (c.sst.tracked.interface.type = "socket" →
      c.sst.tracked.format ≠ "json" →
      verify_sst_configuration c = Except.error "The sst format must be \"json\"") := by
  constructor
  · intro h1 h2
    simp [verify_ssl_configuration, h1, h2]
  · intro h1 h2
    simp [verify_sst_configuration, h1, h2]

/-- Witness for C3 at a concrete configuration with socket interfaces and a
non-json format for both streams. -/
theorem config_socket_bad_format_fails_witness :
    verify_ssl_configuration
      ⟨⟨⟨⟨"socket"⟩, "csv"⟩⟩, ⟨⟨⟨"socket"⟩, "csv"⟩⟩⟩ =
        Except.error "The ssl format must be \"json\"" ∧
    verify_sst_configuration
      ⟨⟨⟨⟨"socket"⟩, "csv"⟩⟩, ⟨⟨⟨"socket"⟩, "csv"⟩⟩⟩ =
        Except.error "The sst format must be \"json\"" :=
  ⟨(config_socket_bad_format_fails _).1 rfl (by decide),
   (config_socket_bad_format_fails _).2 rfl (by decide)⟩

/-- C4: if a stream's interface type is not "socket", verification returns
`ok false` (stream reported disabled) and no error is raised, regardless of
the stream's format value. -/
theorem config_non_socket_disabled (c : Configuration) :
    (c.ssl.potential.interface.type ≠ "socket" →
      verify_ssl_configuration c = Except.ok false) ∧
    (c.sst.tracked.interface.type ≠ "socket" →
      verify_sst_configuration c = Except.ok false) := by
  constructor
  · intro h
    simp [verify_ssl_configuration, h]
  · intro h
    simp [verify_sst_configuration, h]

/-- Witness for C4 at a concrete configuration with non-socket interfaces and
an arbitrary (non-json) format for both streams. -/
theorem config_non_socket_disabled_witness :
    verify_ssl_configuration
      ⟨⟨⟨⟨"file"⟩, "csv"⟩⟩, ⟨⟨⟨"file"⟩, "csv"⟩⟩⟩ = Except.ok false ∧
    verify_sst_configuration
      ⟨⟨⟨⟨"file"⟩, "csv"⟩⟩, ⟨⟨⟨"file"⟩, "csv"⟩⟩⟩ = Except.ok false :=
  ⟨(config_non_socket_disabled _).1 (by decide),
   (config_non_socket_disabled _).2 (by decide)⟩

/-- C2: for every localization event with at least one detection, `_ssl_cb`
publishes exactly one point cloud; its point list has exactly one 4-tuple
`(x, y, z, E)` per detection, in input order; its frame id is copied from the
event and its stamp is the current publish time. -/
theorem ssl_cb_nonempty_points (ssl : OdasSslArrayStamped) (now : Nat)
    (h : 1 ≤ ssl.sources.length) :
    ∃ r, ssl_cb ssl now = some r ∧
      r.points.length = ssl.sources.length ∧
      r.points = ssl.sources.map (fun s => (s.x, s.y, s.z, s.E)) ∧
      (∀ i : Nat, r.points[i]? =
        (ssl.sources[i]?).map (fun s => (s.x, s.y, s.z, s.E))) ∧
      r.header.frame_id = ssl.header.frame_id ∧
      r.header.stamp = now := by
  have h0 : ¬ ssl.sources.length = 0 := by omega
  refine ⟨{ header := { stamp := now, frame_id := ssl.header.frame_id },
            fields := [⟨"x", 0, FLOAT32, 1⟩, ⟨"y", 4, FLOAT32, 1⟩,
                       ⟨"z", 8, FLOAT32, 1⟩, ⟨"intensity", 12, FLOAT32, 1⟩],
            points := ssl.sources.map (fun s => (s.x, s.y, s.z, s.E)) },
          ?_, by simp, rfl, ?_, rfl, rfl⟩
  · simp [ssl_cb, h0, Nat.pos_of_ne_zero h0]
  · intro i
    simp [List.getElem?_map]

/-- Witness for C2: a two-detection event. -/
theorem ssl_cb_nonempty_points_witness :
    1 ≤ (OdasSslArrayStamped.mk ⟨3, "odas"⟩
          [⟨1, 2, 3, 4⟩, ⟨5, 6, 7, 8⟩]).sources.length ∧
    ∃ r, ssl_cb (OdasSslArrayStamped.mk ⟨3, "odas"⟩
          [⟨1, 2, 3, 4⟩, ⟨5, 6, 7, 8⟩]) 9 = some r ∧
      r.points.length = (OdasSslArrayStamped.mk ⟨3, "odas"⟩
          [⟨1, 2, 3, 4⟩, ⟨5, 6, 7, 8⟩]).sources.length ∧
      r.points = (OdasSslArrayStamped.mk ⟨3, "odas"⟩
          [⟨1, 2, 3, 4⟩, ⟨5, 6, 7, 8⟩]).sources.map
            (fun s => (s.x, s.y, s.z, s.E)) ∧
      (∀ i : Nat, r.points[i]? =
        ((OdasSslArrayStamped.mk ⟨3, "odas"⟩
          [⟨1, 2, 3, 4⟩, ⟨5, 6, 7, 8⟩]).sources[i]?).map
            (fun s => (s.x, s.y, s.z, s.E))) ∧
      r.header.frame_id = (OdasSslArrayStamped.mk ⟨3, "odas"⟩
          [⟨1, 2, 3, 4⟩, ⟨5, 6, 7, 8⟩]).header.frame_id ∧
      r.header.stamp = 9 :=
  ⟨by decide, ssl_cb_nonempty_points _ 9 (by decide)⟩

/-- C7: for every localization event with an empty detection list, `_ssl_cb`
publishes nothing and raises no error. -/
theorem ssl_cb_empty_none (ssl : OdasSslArrayStamped) (now : Nat)
    (h : ssl.sources = []) :
    ssl_cb ssl now = none := by
  simp [ssl_cb, h]

/-- Witness for C7: an event with no detections. -/
theorem ssl_cb_empty_none_witness :
    (OdasSslArrayStamped.mk ⟨1, "odas"⟩ []).sources = ([] : List OdasSsl) ∧
    ssl_cb (OdasSslArrayStamped.mk ⟨1, "odas"⟩ []) 2 = none :=
  ⟨rfl, ssl_cb_empty_none _ 2 rfl⟩

/-- C8: a tracking event with 0 tracks leaves every field of the stored pose
unchanged and publishes nothing. -/
theorem sst_cb_no_track_unchanged (s : PoseStamped) (ev : OdasSstArrayStamped)
    (now : Nat) (h0 : ev.sources.length = 0) :
    (sst_cb s ev now).1 = s ∧ (sst_cb s ev now).2.1 = none := by
  unfold sst_cb
  rw [if_pos h0]
  exact ⟨rfl, rfl⟩

/-- Witness for C8: a zero-track event. -/
theorem sst_cb_no_track_unchanged_witness :
    (OdasSstArrayStamped.mk ⟨2, "g"⟩ []).sources.length = 0 ∧
    (sst_cb initPoseStamped (OdasSstArrayStamped.mk ⟨2, "g"⟩ []) 3).1 =
      initPoseStamped ∧
    (sst_cb initPoseStamped (OdasSstArrayStamped.mk ⟨2, "g"⟩ []) 3).2.1 = none :=
  ⟨rfl,
   (sst_cb_no_track_unchanged initPoseStamped
     (OdasSstArrayStamped.mk ⟨2, "g"⟩ []) 3 rfl).1,
   (sst_cb_no_track_unchanged initPoseStamped
     (OdasSstArrayStamped.mk ⟨2, "g"⟩ []) 3 rfl).2⟩

/-- C6: a tracking event with two or more tracks publishes nothing; the
callback logs (via `rospy.logerr`, not a raised fault) a message naming the
invalid track count, and control returns normally so later events are still
processed. -/
theorem sst_cb_multi_track_logs (s : PoseStamped) (ev : OdasSstArrayStamped)
    (now : Nat) (h2 : 2 ≤ ev.sources.length) :
    (sst_cb s ev now).2.1 = none ∧
    (sst_cb s ev now).2.2 =
      some ("Invalid sst (len(sst.sources)=" ++ toString ev.sources.length ++ ")") := by
  have h0 : ¬ ev.sources.length = 0 := by omega
  have h1 : ev.sources.length > 1 := by omega
  unfold sst_cb
  rw [if_neg h0, if_pos h1]
  exact ⟨rfl, rfl⟩

/-- Witness for C6: a two-track event, logged count 2. -/
theorem sst_cb_multi_track_logs_witness :
    2 ≤ (OdasSstArrayStamped.mk ⟨5, "h"⟩ [⟨1, 0, 0⟩, ⟨0, 1, 0⟩]).sources.length ∧
    (sst_cb initPoseStamped
      (OdasSstArrayStamped.mk ⟨5, "h"⟩ [⟨1, 0, 0⟩, ⟨0, 1, 0⟩]) 6).2.1 = none ∧
    (sst_cb initPoseStamped
      (OdasSstArrayStamped.mk ⟨5, "h"⟩ [⟨1, 0, 0⟩, ⟨0, 1, 0⟩]) 6).2.2 =
      some ("Invalid sst (len(sst.sources)=" ++
        toString (OdasSstArrayStamped.mk ⟨5, "h"⟩
          [⟨1, 0, 0⟩, ⟨0, 1, 0⟩]).sources.length ++ ")") :=
  ⟨by decide,
   (sst_cb_multi_track_logs initPoseStamped _ 6 (by decide)).1,
   (sst_cb_multi_track_logs initPoseStamped _ 6 (by decide)).2⟩

/-- C9: a tracking event with two or more tracks leaves every field of the
stored pose unchanged: the event is dropped before any field write. -/
theorem sst_cb_multi_track_state_unchanged (s : PoseStamped)
    (ev : OdasSstArrayStamped) (now : Nat) (h2 : 2 ≤ ev.sources.length) :
    (sst_cb s ev now).1 = s ∧ (sst_cb s ev now).2.1 = none := by
  have h0 : ¬ ev.sources.length = 0 := by omega
  have h1 : ev.sources.length > 1 := by omega
  unfold sst_cb
  rw [if_neg h0, if_pos h1]
  exact ⟨rfl, rfl⟩

/-- Witness for C9: a three-track event. -/
theorem sst_cb_multi_track_state_unchanged_witness :
    2 ≤ (OdasSstArrayStamped.mk ⟨7, "k"⟩
          [⟨1, 0, 0⟩, ⟨0, 1, 0⟩, ⟨0, 0, 1⟩]).sources.length ∧
    (sst_cb initPoseStamped (OdasSstArrayStamped.mk ⟨7, "k"⟩
          [⟨1, 0, 0⟩, ⟨0, 1, 0⟩, ⟨0, 0, 1⟩]) 8).1 = initPoseStamped ∧
    (sst_cb initPoseStamped (OdasSstArrayStamped.mk ⟨7, "k"⟩
          [⟨1, 0, 0⟩, ⟨0, 1, 0⟩, ⟨0, 0, 1⟩]) 8).2.1 = none :=
  ⟨by decide,
   (sst_cb_multi_track_state_unchanged initPoseStamped _ 8 (by decide)).1,
   (sst_cb_multi_track_state_unchanged initPoseStamped _ 8 (by decide)).2⟩

/-- C5: starting from any reachable stored pose, a tracking event with
exactly one track publishes the updated stored record; its position is the
origin, and compared with the prior state only orientation and header were
written (the position field is copied from the prior state, which itself is
the origin in every reachable state). -/
theorem sst_cb_single_track_pose (s : PoseStamped) (ev : OdasSstArrayStamped)
    (now : Nat) (hs : Reachable s) (h1 : ev.sources.length = 1) :
    s.pose.position = ⟨0, 0, 0⟩ ∧
    ∃ r, (sst_cb s ev now).2.1 = some r ∧
      (sst_cb s ev now).1 = r ∧
      r.pose.position = ⟨0, 0, 0⟩ ∧
      r.pose.position = s.pose.position := by
  have hpos := reachable_position_origin s hs
  refine ⟨hpos, ?_⟩
  have h0 : ¬ ev.sources.length = 0 := by omega
  have hgt : ¬ ev.sources.length > 1 := by omega
  unfold sst_cb
  rw [if_neg h0, if_neg hgt]
  cases hev : ev.sources with
  | nil => rw [hev] at h1; simp at h1
  | cons src rest =>
    exact ⟨_, rfl, rfl, hpos, rfl⟩

/-- Witness for C5: the initial state and a one-track event. -/
theorem sst_cb_single_track_pose_witness :
    Reachable initPoseStamped ∧
    (OdasSstArrayStamped.mk ⟨4, "m"⟩ [⟨0, 1, 0⟩]).sources.length = 1 ∧
    (initPoseStamped.pose.position = ⟨0, 0, 0⟩ ∧
     ∃ r, (sst_cb initPoseStamped
            (OdasSstArrayStamped.mk ⟨4, "m"⟩ [⟨0, 1, 0⟩]) 5).2.1 = some r ∧
       (sst_cb initPoseStamped
            (OdasSstArrayStamped.mk ⟨4, "m"⟩ [⟨0, 1, 0⟩]) 5).1 = r ∧
       r.pose.position = ⟨0, 0, 0⟩ ∧
       r.pose.position = initPoseStamped.pose.position) :=
  ⟨Reachable.init, rfl,
   sst_cb_single_track_pose initPoseStamped _ 5 Reachable.init rfl⟩

/-- The `sxyz` Euler-to-quaternion computation embedded from the library
agrees componentwise with the standard formula written from the spec. -/
theorem quaternion_from_euler_eq_spec (ai aj ak : ℝ) :
    quaternion_from_euler ai aj ak = specEulerToQuaternion ai aj ak := by
  unfold quaternion_from_euler specEulerToQuaternion
  dsimp only
  simp only [Prod.mk.injEq]
  refine ⟨by ring, by ring, by ring, by ring⟩

/-- C1: the converter computes `yaw = atan2 y x`,
`pitch = -atan2 z (sqrt (x*x + y*y))`, `roll = 0`, and returns exactly the
quaternion the standard right-handed Euler-to-quaternion formula (intrinsic
roll, pitch, yaw order) assigns to that triple. -/
theorem unitVector_to_quaternion_matches_spec (x y z : ℝ) :
    unitVector_to_quaternion x y z =
      specEulerToQuaternion 0 (-atan2 z (Real.sqrt (x * x + y * y)))
        (atan2 y x) := by
  unfold unitVector_to_quaternion
  exact quaternion_from_euler_eq_spec 0 _ _

/-- C10: on the degenerate input `(0, 0, 0)` the converter returns the
identity quaternion `(0, 0, 0, 1)`: both `atan2` calls evaluate to 0, so all
three Euler angles are 0, and no error is raised (the model is total). -/
theorem unitVector_to_quaternion_origin :
    unitVector_to_quaternion 0 0 0 = (0, 0, 0, 1) := by
  have hs : Real.sqrt ((0 : ℝ) * 0 + 0 * 0) = 0 := by norm_num
  have hatan : atan2 0 0 = 0 := by unfold atan2; norm_num
  unfold unitVector_to_quaternion quaternion_from_euler
  rw [hs, hatan]
  norm_num
